import Mathlib

/-!
Verification development for the MCP-Gateway repository.

Shallow embedding of the gateway's core components:
* `capability_registry.py` — capability discovery, aggregation and routing
  (`CapabilityRegistry._discover_and_register_capability_type`,
  `discover_and_register`, `resolve_capability`);
* `bridge_app.py` — the forwarding engine (`_fwd_req_helper`,
  `handle_call_tool`, `handle_read_resource`, `handle_get_prompt`) and the
  startup orchestration (`_connect_backends`, `_discover_capabilities`);
* `client_manager.py` — the subprocess supervisor termination protocol
  (`_manage_subproc`, finally block), `stop_all`, `get_session`,
  `get_all_sessions`.

Python dictionaries are modelled as insertion-ordered association lists,
Python exceptions as explicit error values (`Except`), and the cooperative
concurrency of `asyncio.gather` as an arbitrary interleaving of the atomic
registration batches (each batch corresponds to the exception-free tail of
one `_discover_and_register_capability_type` task, which contains no await
points inside its registration loop).
-/

namespace MCPGateway

/-! ### Association-list model of Python dict -/

/-- Lookup in an insertion-ordered association list; models `dict.get` /
`in` on a Python dict whose keys are kept unique by insert-if-absent. -/
def lookupA {α : Type} (k : String) : List (String × α) → Option α
  | [] => none
  | p :: rest => if p.1 = k then some p.2 else lookupA k rest

@[simp] theorem lookupA_nil {α : Type} (k : String) :
    lookupA (α := α) k [] = none := rfl

theorem lookupA_cons {α : Type} (k : String) (p : String × α)
    (l : List (String × α)) :
    lookupA k (p :: l) = if p.1 = k then some p.2 else lookupA k l := rfl

theorem lookupA_append_of_none {α : Type} (k : String)
    (l1 l2 : List (String × α)) (h : lookupA k l1 = none) :
    lookupA k (l1 ++ l2) = lookupA k l2 := by
  induction l1 with
  | nil => simp
  | cons p t ih =>
    rw [lookupA_cons] at h
    by_cases hp : p.1 = k
    · simp [hp] at h
    · simp only [hp, if_false] at h
      simpa [lookupA_cons, hp] using ih h

theorem lookupA_append_of_isSome {α : Type} (k : String)
    (l1 l2 : List (String × α)) (h : (lookupA k l1).isSome) :
    lookupA k (l1 ++ l2) = lookupA k l1 := by
  induction l1 with
  | nil => simp at h
  | cons p t ih =>
    rw [lookupA_cons] at h
    by_cases hp : p.1 = k
    · simp [lookupA_cons, hp]
    · simp only [hp, if_false] at h
      simpa [lookupA_cons, hp] using ih h

theorem lookupA_single {α : Type} (k k2 : String) (v : α) :
    lookupA k [(k2, v)] = if k2 = k then some v else none := rfl

/-- Count occurrences of a string in a list. -/
def countS (n : String) : List String → Nat
  | [] => 0
  | x :: t => (if x = n then 1 else 0) + countS n t

@[simp] theorem countS_nil (n : String) : countS n [] = 0 := rfl

theorem countS_cons (n x : String) (t : List String) :
    countS n (x :: t) = (if x = n then 1 else 0) + countS n t := rfl

theorem countS_append (n : String) (l1 l2 : List String) :
    countS n (l1 ++ l2) = countS n l1 + countS n l2 := by
  induction l1 with
  | nil => simp
  | cons x t ih => simp [countS_cons, ih]; omega

theorem countS_eq_zero_iff (n : String) (l : List String) :
    countS n l = 0 ↔ n ∉ l := by
  induction l with
  | nil => simp
  | cons x t ih =>
    by_cases hx : x = n
    · subst hx; simp [countS_cons]
    · have hnx : ¬n = x := fun h => hx h.symm
      simp [countS_cons, hx, hnx, ih]

/-! ### Capability registry (`capability_registry.py`) -/

/-- The three MCP capability classes `mcp_types.Tool`, `mcp_types.Resource`,
`mcp_types.Prompt` used as `mcp_type_class` in
`_discover_and_register_capability_type`. -/
inductive CapType where
  | tool
  | resource
  | prompt
deriving DecidableEq, Repr

/-- A capability item as produced by a backend list call: its runtime class
(`variant`), its `name`, and its `description`. -/
structure CapItem where
  variant : CapType
  name : String
  description : Option String := none
deriving DecidableEq, Repr

/-- Registry state: the three insertion-ordered aggregated lists, the routing
map `prefixed_capability_name -> (server_name, original_capability_name)` and
the `_original_name_map` (capability_registry.py lines 15-22). -/
structure RegistryState where
  aggregatedTools : List CapItem
  aggregatedResources : List CapItem
  aggregatedPrompts : List CapItem
  routingMap : List (String × (String × String))
  originalNameMap : List (String × String)
deriving DecidableEq, Repr

/-- Fresh registry state as built by `CapabilityRegistry.__init__`. -/
def RegistryState.empty : RegistryState := ⟨[], [], [], [], []⟩

/-- The exposed name of a capability: `f"{capability_prefix}{original}"`
with `capability_prefix = f"{server_name}_"` (capability_registry.py
lines 82 and 167). -/
def exposedNameOf (serverName original : String) : String :=
  serverName ++ "_" ++ original

/-- One iteration of the registration loop of
`_discover_and_register_capability_type` (capability_registry.py
lines 64-128): skip items of the wrong class or with an empty name, record
the original name, then register under the prefixed name unless that name is
already in the routing map (first registration wins; later ones are dropped
with a log line). -/
def registerItem (serverName : String) (expected : CapType)
    (st : RegistryState) (capItem : CapItem) : RegistryState :=
  if capItem.variant ≠ expected then st
  else if capItem.name = "" then st
  else
    let originalItemName := capItem.name
    let prefixedItemName := exposedNameOf serverName originalItemName
    let onm :=
      if (lookupA originalItemName st.originalNameMap).isSome then
        st.originalNameMap
      else st.originalNameMap ++ [(originalItemName, serverName)]
    if (lookupA prefixedItemName st.routingMap).isSome then
      { st with originalNameMap := onm }
    else
      let newItem : CapItem :=
        ⟨expected, prefixedItemName, capItem.description⟩
      match expected with
      | .tool =>
        { st with
          aggregatedTools := st.aggregatedTools ++ [newItem]
          routingMap :=
            st.routingMap ++ [(prefixedItemName, (serverName, originalItemName))]
          originalNameMap := onm }
      | .resource =>
        { st with
          aggregatedResources := st.aggregatedResources ++ [newItem]
          routingMap :=
            st.routingMap ++ [(prefixedItemName, (serverName, originalItemName))]
          originalNameMap := onm }
      | .prompt =>
        { st with
          aggregatedPrompts := st.aggregatedPrompts ++ [newItem]
          routingMap :=
            st.routingMap ++ [(prefixedItemName, (serverName, originalItemName))]
          originalNameMap := onm }

/-- Shape of a `list_*` response, as discriminated by capability_registry.py
lines 48-59: an object carrying an attribute named after the capability type
(whose value may or may not be a Python list), a bare list, `None`, or any
other value. -/
inductive ListResult where
  | objField (fieldName : String) (items : List CapItem)
  | objFieldNonList (fieldName : String)
  | bareList (items : List CapItem)
  | noneResult
  | otherShape
deriving DecidableEq, Repr

/-- `capability_type_name` string for each capability class ("tools",
"resources", "prompts"). -/
def capabilityTypeName : CapType → String
  | .tool => "tools"
  | .resource => "resources"
  | .prompt => "prompts"

/-- Parsing of a `list_*` response into `original_capabilities`
(capability_registry.py lines 47-59): an object with the attribute named
`capability_type_name` holding a list yields that list; a bare list yields
itself; `None` and every other shape yield the empty list. -/
def parseListResult (typeName : String) : ListResult → List CapItem
  | .objField f items => if f = typeName then items else []
  | .objFieldNonList _ => []
  | .bareList items => items
  | .noneResult => []
  | .otherShape => []

/-- Outcome of the awaited `list_*` call: either a response value, or an
exception (timeout, MCP error, anything else) which the surrounding
try/except of `_discover_and_register_capability_type` (lines 135-145)
catches, so that nothing is registered from this task. -/
inductive FetchOutcome where
  | ok (result : ListResult)
  | fetchError
deriving DecidableEq, Repr

/-- The entire body of one `_discover_and_register_capability_type` task:
fetch, parse, then run the registration loop; an exception anywhere leaves
the state untouched. -/
def registerCapabilityType (serverName : String) (expected : CapType)
    (st : RegistryState) (fetch : FetchOutcome) : RegistryState :=
  match fetch with
  | .fetchError => st
  | .ok r =>
    (parseListResult (capabilityTypeName expected) r).foldl
      (registerItem serverName expected) st

/-- One discovery task as created by `discover_and_register`
(capability_registry.py lines 169-183): a backend name, a capability type,
and the outcome of the corresponding `list_*` call. -/
structure DiscoveryEvent where
  serverName : String
  capType : CapType
  fetch : FetchOutcome
deriving DecidableEq, Repr

/-- Execution of the gathered discovery tasks in some interleaving order:
each task's registration loop is atomic (no await points inside it), so a
run of `asyncio.gather` is a sequence of whole batches. -/
def runDiscovery (events : List DiscoveryEvent) : RegistryState :=
  events.foldl
    (fun st e => registerCapabilityType e.serverName e.capType st e.fetch)
    RegistryState.empty

/-- `discover_and_register` (capability_registry.py lines 148-186): clears
all five containers, then runs all discovery tasks. -/
def discoverAndRegister (_prev : RegistryState)
    (events : List DiscoveryEvent) : RegistryState :=
  runDiscovery events

/-- `resolve_capability` (capability_registry.py lines 202-207). -/
def resolveCapability (st : RegistryState) (name : String) :
    Option (String × String) :=
  lookupA name st.routingMap

/-- The exposed names appearing across the three aggregated lists, in list
order. -/
def aggregatedNames (st : RegistryState) : List String :=
  st.aggregatedTools.map (fun c => c.name)
    ++ st.aggregatedResources.map (fun c => c.name)
    ++ st.aggregatedPrompts.map (fun c => c.name)

/-! ### Registry invariants -/

/-- Invariant relating the three aggregated lists and the routing map: every
name occurs across the lists exactly once when it is a routing key and never
otherwise, and every routing entry maps a prefixed name to its
`(server, original)` pair. -/
def registryInv (st : RegistryState) : Prop :=
  (∀ n, countS n (aggregatedNames st) =
      if (lookupA n st.routingMap).isSome then 1 else 0)
  ∧ ∀ p ∈ st.routingMap, p.1 = exposedNameOf p.2.1 p.2.2

theorem registryInv_empty : registryInv RegistryState.empty := by
  constructor
  · intro n; simp [RegistryState.empty, aggregatedNames, resolveCapability]
  · intro p hp; simp [RegistryState.empty] at hp

theorem countS_if_insert (oldNames newNames : List String)
    (rm : List (String × (String × String))) (k : String) (v : String × String)
    (hshape : ∀ n, countS n newNames
      = countS n oldNames + (if k = n then 1 else 0))
    (hc : ∀ n, countS n oldNames = if (lookupA n rm).isSome then 1 else 0)
    (hk : lookupA k rm = none) :
    ∀ n, countS n newNames
      = if (lookupA n (rm ++ [(k, v)])).isSome then 1 else 0 := by
  intro n
  rw [hshape n, hc n]
  by_cases hkn : k = n
  · subst hkn
    rw [lookupA_append_of_none k rm _ hk]
    simp [lookupA_single, hk]
  · cases hq : lookupA n rm with
    | none =>
      rw [lookupA_append_of_none n rm _ hq]
      simp [lookupA_single, hkn, hq]
    | some w =>
      rw [lookupA_append_of_isSome n rm _ (by simp [hq])]
      simp [hq, hkn]

theorem registryInv_registerItem (s : String) (expected : CapType)
    (st : RegistryState) (it : CapItem) (h : registryInv st) :
    registryInv (registerItem s expected st it) := by
  by_cases h1 : it.variant = expected
  case neg => simpa [registerItem, h1] using h
  by_cases h2 : it.name = ""
  case pos => simpa [registerItem, h1, h2] using h
  by_cases h3 : (lookupA (exposedNameOf s it.name) st.routingMap).isSome
  case pos =>
    obtain ⟨T, R, P, rm, onm⟩ := st
    constructor
    · intro n
      simpa [registerItem, h1, h2, h3, aggregatedNames] using h.1 n
    · intro p hp
      apply h.2
      simpa [registerItem, h1, h2, h3] using hp
  case neg =>
    obtain ⟨T, R, P, rm, onm⟩ := st
    obtain ⟨hc, hs⟩ := h
    have h3n : lookupA (exposedNameOf s it.name) rm = none := by
      cases hq : lookupA (exposedNameOf s it.name) rm with
      | none => rfl
      | some v => exact absurd (by simp [hq]) h3
    have hshapes : ∀ p2, p2 ∈ rm ++ [(exposedNameOf s it.name, (s, it.name))] →
        p2.1 = exposedNameOf p2.2.1 p2.2.2 := by
      intro p2 hp2
      rcases List.mem_append.mp hp2 with hin | hin
      · exact hs p2 hin
      · simp at hin; subst hin; rfl
    have hrm : (registerItem s expected ⟨T, R, P, rm, onm⟩ it).routingMap
        = rm ++ [(exposedNameOf s it.name, (s, it.name))] := by
      cases expected <;> simp [registerItem, h1, h2, h3]
    have hsh : ∀ n,
        countS n (aggregatedNames (registerItem s expected ⟨T, R, P, rm, onm⟩ it))
          = countS n (aggregatedNames ⟨T, R, P, rm, onm⟩)
            + (if exposedNameOf s it.name = n then 1 else 0) := by
      intro n
      cases expected
      all_goals
        simp [registerItem, h1, h2, h3, aggregatedNames, countS_append,
          countS_cons]
      all_goals
        by_cases hkn : exposedNameOf s it.name = n <;>
          (simp [hkn]; try omega)
    refine ⟨?_, ?_⟩
    · intro n
      rw [hrm]
      exact countS_if_insert _ _ rm _ _ hsh hc h3n n
    · intro p hp
      rw [hrm] at hp
      exact hshapes p hp

theorem registryInv_foldItems (s : String) (expected : CapType) :
    ∀ (l : List CapItem) (st : RegistryState), registryInv st →
      registryInv (l.foldl (registerItem s expected) st) := by
  intro l
  induction l with
  | nil => intro st h; exact h
  | cons x t ih =>
    intro st h
    exact ih (registerItem s expected st x)
      (registryInv_registerItem s expected st x h)

theorem registryInv_registerCapabilityType (s : String) (expected : CapType)
    (st : RegistryState) (fetch : FetchOutcome) (h : registryInv st) :
    registryInv (registerCapabilityType s expected st fetch) := by
  cases fetch with
  | fetchError => exact h
  | ok r => exact registryInv_foldItems s expected _ st h

theorem registryInv_foldEvents :
    ∀ (events : List DiscoveryEvent) (st : RegistryState), registryInv st →
      registryInv (events.foldl
        (fun st e => registerCapabilityType e.serverName e.capType st e.fetch)
        st) := by
  intro events
  induction events with
  | nil => intro st h; exact h
  | cons e t ih =>
    intro st h
    exact ih _ (registryInv_registerCapabilityType e.serverName e.capType st
      e.fetch h)

theorem registryInv_runDiscovery (events : List DiscoveryEvent) :
    registryInv (runDiscovery events) :=
  registryInv_foldEvents events RegistryState.empty registryInv_empty

/-- Registration of an item whose prefixed name is already a routing key
leaves the three aggregated lists and the routing map unchanged
(capability_registry.py lines 98-109: the item is dropped with an error log;
only `_original_name_map` may gain an entry). -/
theorem registerItem_drop (s : String) (expected : CapType)
    (st : RegistryState) (it : CapItem)
    (h : (lookupA (exposedNameOf s it.name) st.routingMap).isSome) :
    (registerItem s expected st it).aggregatedTools = st.aggregatedTools ∧
    (registerItem s expected st it).aggregatedResources
      = st.aggregatedResources ∧
    (registerItem s expected st it).aggregatedPrompts
      = st.aggregatedPrompts ∧
    (registerItem s expected st it).routingMap = st.routingMap := by
  by_cases h1 : it.variant = expected
  · by_cases h2 : it.name = ""
    · simp [registerItem, h1, h2]
    · simp [registerItem, h1, h2, h]
  · simp [registerItem, h1]

/-! ### Claims C1, C2, C5, C8 -/

/-- Claim C2: after any completed `discover_and_register` pass, the key set
of the routing map equals the union of the exposed names appearing in the
three aggregated lists — every listed name resolves and every routing key
names a listed capability. -/
theorem c2_routing_keys_eq_listed_names (prev : RegistryState)
    (events : List DiscoveryEvent) (n : String) :
    (resolveCapability (discoverAndRegister prev events) n).isSome ↔
      n ∈ aggregatedNames (discoverAndRegister prev events) := by
  have hc := (registryInv_runDiscovery events).1 n
  show (lookupA n (runDiscovery events).routingMap).isSome ↔
    n ∈ aggregatedNames (runDiscovery events)
  by_cases hs : (lookupA n (runDiscovery events).routingMap).isSome
  · have h1 : countS n (aggregatedNames (runDiscovery events)) = 1 := by
      rw [hc]; simp [hs]
    have hne : n ∈ aggregatedNames (runDiscovery events) := by
      by_contra hmem
      rw [(countS_eq_zero_iff n _).mpr hmem] at h1
      exact absurd h1 (by omega)
    simp [hs, hne]
  · have h0 : countS n (aggregatedNames (runDiscovery events)) = 0 := by
      rw [hc]; simp [hs]
    have hne := (countS_eq_zero_iff n _).mp h0
    simp [hs, hne]

/-- Claim C1 counterexample: two backends `A` and `B` each offering a tool
named `echo`. In the aggregated list and routing map the capabilities appear
under the prefixed names `A_echo` and `B_echo`, not under the original name
`echo` (which does not resolve at all), and the second backend's entry is
kept rather than dropped. -/
theorem c1_counterexample :
    (discoverAndRegister RegistryState.empty
        [⟨"A", CapType.tool, .ok (.bareList [⟨CapType.tool, "echo", none⟩])⟩,
         ⟨"B", CapType.tool, .ok (.bareList [⟨CapType.tool, "echo", none⟩])⟩]
      ).aggregatedTools.map (fun c => c.name) = ["A_echo", "B_echo"]
    ∧ resolveCapability (discoverAndRegister RegistryState.empty
        [⟨"A", CapType.tool, .ok (.bareList [⟨CapType.tool, "echo", none⟩])⟩,
         ⟨"B", CapType.tool, .ok (.bareList [⟨CapType.tool, "echo", none⟩])⟩])
        "echo" = none
    ∧ resolveCapability (discoverAndRegister RegistryState.empty
        [⟨"A", CapType.tool, .ok (.bareList [⟨CapType.tool, "echo", none⟩])⟩,
         ⟨"B", CapType.tool, .ok (.bareList [⟨CapType.tool, "echo", none⟩])⟩])
        "B_echo" = some ("B", "echo") := by
  refine ⟨?_, ?_, ?_⟩ <;> rfl

/-- Claim C1 (amended): every capability is exposed under the prefixed name
`serverName ++ "_" ++ originalName`, the routing map sends each exposed name
to its `(backend, original name)` pair, and when a registration produces an
exposed (prefixed) name that is already a routing key, the first
registration wins — the later one is dropped (and logged) leaving the
aggregated lists and the routing map unchanged. -/
theorem c1_amended_prefixed_first_wins :
    (∀ (prev : RegistryState) (events : List DiscoveryEvent) (p : String × (String × String)),
      p ∈ (discoverAndRegister prev events).routingMap →
        p.1 = exposedNameOf p.2.1 p.2.2)
    ∧ ∀ (s : String) (expected : CapType) (st : RegistryState) (it : CapItem),
        (lookupA (exposedNameOf s it.name) st.routingMap).isSome →
          (registerItem s expected st it).aggregatedTools
              = st.aggregatedTools
          ∧ (registerItem s expected st it).aggregatedResources
              = st.aggregatedResources
          ∧ (registerItem s expected st it).aggregatedPrompts
              = st.aggregatedPrompts
          ∧ (registerItem s expected st it).routingMap = st.routingMap := by
  constructor
  · intro prev events p hp
    exact (registryInv_runDiscovery events).2 p hp
  · intro s expected st it h
    exact registerItem_drop s expected st it h

/-- Witness for the amended claim C1 at a concrete state holding the tool
`A_echo`: registering the tool `echo` from backend `A` again leaves the
routing map unchanged, and the existing routing entry is of prefixed
shape. -/
theorem c1_amended_prefixed_first_wins_witness :
    ("A_echo", ("A", "echo")).1
        = exposedNameOf ("A_echo", ("A", "echo")).2.1
            ("A_echo", ("A", "echo")).2.2
    ∧ (registerItem "A" CapType.tool
        ⟨[⟨CapType.tool, "A_echo", none⟩], [], [],
          [("A_echo", ("A", "echo"))], [("echo", "A")]⟩
        ⟨CapType.tool, "echo", none⟩).routingMap
      = [("A_echo", ("A", "echo"))] :=
  ⟨c1_amended_prefixed_first_wins.1 RegistryState.empty
      [⟨"A", CapType.tool, .ok (.bareList [⟨CapType.tool, "echo", none⟩])⟩]
      ("A_echo", ("A", "echo")) (by decide),
   (c1_amended_prefixed_first_wins.2 "A" CapType.tool
      ⟨[⟨CapType.tool, "A_echo", none⟩], [], [],
        [("A_echo", ("A", "echo"))], [("echo", "A")]⟩
      ⟨CapType.tool, "echo", none⟩ (by decide)).2.2.2⟩

/-- Claim C8: the routing map is shared across the three capability types,
so any exposed name occurs at most once across the three aggregated lists,
and a registration whose exposed name is already taken — by any capability
type, even one of the same backend — is dropped, leaving the lists and the
routing map unchanged. -/
theorem c8_shared_routing_map_cross_type :
    (∀ (prev : RegistryState) (events : List DiscoveryEvent) (n : String),
      countS n (aggregatedNames (discoverAndRegister prev events)) ≤ 1)
    ∧ ∀ (s : String) (expected : CapType) (st : RegistryState) (it : CapItem),
        (lookupA (exposedNameOf s it.name) st.routingMap).isSome →
          (registerItem s expected st it).aggregatedTools
              = st.aggregatedTools
          ∧ (registerItem s expected st it).aggregatedResources
              = st.aggregatedResources
          ∧ (registerItem s expected st it).aggregatedPrompts
              = st.aggregatedPrompts
          ∧ (registerItem s expected st it).routingMap = st.routingMap := by
  constructor
  · intro prev events n
    have hc := (registryInv_runDiscovery events).1 n
    show countS n (aggregatedNames (runDiscovery events)) ≤ 1
    rw [hc]
    by_cases hs : (lookupA n (runDiscovery events).routingMap).isSome <;>
      simp [hs]
  · intro s expected st it h
    exact registerItem_drop s expected st it h

/-- Witness for claim C8, cross-type at the same backend: with the tool
`A_x` registered, a resource `x` from the same backend `A` maps to the same
exposed name `A_x` and is dropped — the resource list stays empty and the
routing map is unchanged. -/
theorem c8_shared_routing_map_cross_type_witness :
    countS "A_x" (aggregatedNames (discoverAndRegister RegistryState.empty
        [⟨"A", CapType.tool, .ok (.bareList [⟨CapType.tool, "x", none⟩])⟩,
         ⟨"A", CapType.resource,
            .ok (.bareList [⟨CapType.resource, "x", none⟩])⟩])) ≤ 1
    ∧ (registerItem "A" CapType.resource
        ⟨[⟨CapType.tool, "A_x", none⟩], [], [],
          [("A_x", ("A", "x"))], [("x", "A")]⟩
        ⟨CapType.resource, "x", none⟩).aggregatedResources = []
    ∧ (registerItem "A" CapType.resource
        ⟨[⟨CapType.tool, "A_x", none⟩], [], [],
          [("A_x", ("A", "x"))], [("x", "A")]⟩
        ⟨CapType.resource, "x", none⟩).routingMap = [("A_x", ("A", "x"))] :=
  ⟨c8_shared_routing_map_cross_type.1 RegistryState.empty
      [⟨"A", CapType.tool, .ok (.bareList [⟨CapType.tool, "x", none⟩])⟩,
       ⟨"A", CapType.resource,
          .ok (.bareList [⟨CapType.resource, "x", none⟩])⟩] "A_x",
   (c8_shared_routing_map_cross_type.2 "A" CapType.resource
      ⟨[⟨CapType.tool, "A_x", none⟩], [], [],
        [("A_x", ("A", "x"))], [("x", "A")]⟩
      ⟨CapType.resource, "x", none⟩ (by decide)).2.1,
   (c8_shared_routing_map_cross_type.2 "A" CapType.resource
      ⟨[⟨CapType.tool, "A_x", none⟩], [], [],
        [("A_x", ("A", "x"))], [("x", "A")]⟩
      ⟨CapType.resource, "x", none⟩ (by decide)).2.2.2⟩

/-- The guard of the registration loop (capability_registry.py lines 66-79):
an item takes part in registration only when it is an instance of the
expected capability class and has a non-empty name. -/
def isRegistrable (expected : CapType) (it : CapItem) : Bool :=
  it.variant == expected && !(it.name == "")

theorem registerItem_skip (s : String) (expected : CapType)
    (st : RegistryState) (it : CapItem)
    (h : isRegistrable expected it = false) :
    registerItem s expected st it = st := by
  by_cases h1 : it.variant = expected
  · by_cases h2 : it.name = ""
    · simp [registerItem, h1, h2]
    · simp [isRegistrable, h1, h2] at h
  · simp [registerItem, h1]

theorem foldl_registerItem_filter (s : String) (expected : CapType) :
    ∀ (items : List CapItem) (st : RegistryState),
      items.foldl (registerItem s expected) st
        = (items.filter (isRegistrable expected)).foldl
            (registerItem s expected) st := by
  intro items
  induction items with
  | nil => intro st; rfl
  | cons x t ih =>
    intro st
    cases hx : isRegistrable expected x with
    | true => simp [List.filter_cons, hx, ih]
    | false =>
      simp [List.filter_cons, hx]
      rw [registerItem_skip s expected st x hx]
      exact ih st

/-- Claim C5: a list response is parsed as an object carrying a list under
the attribute named after the capability type, a bare list, or empty for
`None`, non-list attribute values, mismatched attribute names and every
other shape; and items of the wrong class or with an empty name contribute
nothing to the registration fold. -/
theorem c5_list_response_parsing :
    (∀ (tn : String) (items : List CapItem),
      parseListResult tn (.objField tn items) = items)
    ∧ (∀ (tn : String) (items : List CapItem),
      parseListResult tn (.bareList items) = items)
    ∧ (∀ tn : String, parseListResult tn .noneResult = [])
    ∧ (∀ tn : String, parseListResult tn .otherShape = [])
    ∧ (∀ tn f : String, parseListResult tn (.objFieldNonList f) = [])
    ∧ (∀ (tn f : String) (items : List CapItem), f ≠ tn →
        parseListResult tn (.objField f items) = [])
    ∧ ∀ (s : String) (expected : CapType) (st : RegistryState)
        (items : List CapItem),
        items.foldl (registerItem s expected) st
          = (items.filter (isRegistrable expected)).foldl
              (registerItem s expected) st := by
  refine ⟨?_, ?_, ?_, ?_, ?_, ?_, ?_⟩
  · intro tn items; simp [parseListResult]
  · intro tn items; rfl
  · intro tn; rfl
  · intro tn; rfl
  · intro tn f; rfl
  · intro tn f items h; simp [parseListResult, h]
  · intro s expected st items; exact foldl_registerItem_filter s expected items st

/-- Witness for claim C5: an object whose attribute is named `foo` is parsed
as empty when `tools` is expected, and a batch of one wrong-class item and
one unnamed item registers nothing. -/
theorem c5_list_response_parsing_witness :
    parseListResult "tools" (.objField "foo" [⟨CapType.tool, "x", none⟩]) = []
    ∧ [(⟨CapType.resource, "x", none⟩ : CapItem),
       ⟨CapType.tool, "", none⟩].foldl
        (registerItem "A" CapType.tool) RegistryState.empty
      = ([] : List CapItem).foldl
          (registerItem "A" CapType.tool) RegistryState.empty :=
  ⟨c5_list_response_parsing.2.2.2.2.2.1 "tools" "foo"
      [⟨CapType.tool, "x", none⟩] (by decide),
   c5_list_response_parsing.2.2.2.2.2.2 "A" CapType.tool
      RegistryState.empty
      [⟨CapType.resource, "x", none⟩, ⟨CapType.tool, "", none⟩]⟩

/-! ### Forwarding engine (`bridge_app.py`) -/

/-- Python values appearing in request argument dictionaries; `str()` is
modelled by `pyStr`, with `unstringable` standing for a value whose
`__str__` raises. -/
inductive PyValue where
  | pstr (s : String)
  | pint (n : Int)
  | pbool (b : Bool)
  | unstringable
deriving DecidableEq, Repr

/-- Python `str(v)`; `none` models an exception raised by conversion. -/
def pyStr : PyValue → Option String
  | .pstr s => some s
  | .pint n => some (toString n)
  | .pbool b => some (if b then "True" else "False")
  | .unstringable => none

/-- An MCP argument dictionary. -/
abbrev ArgsD : Type := List (String × PyValue)

/-- Exceptions a backend session call can raise, discriminated by the
except clauses of `_fwd_req_helper` (bridge_app.py lines 478-497). -/
inductive SessionExc where
  | timeout
  | connectionLost
  | backendError
  | otherExc (typeName : String)
deriving DecidableEq, Repr

/-- Result values a backend session call can return; the front-facing
handlers check them with `isinstance` against the expected result class. -/
inductive MCPResult where
  | callToolResult (content : List String)
  | readResourceResult (content : String) (mimeType : Option String)
  | getPromptResult (messages : List String)
  | unexpectedValue
deriving DecidableEq, Repr

/-- Errors surfaced by the forwarding engine, one per raise site of
`_fwd_req_helper` and the handlers:
`componentsNotInit` is the BackendServerError of line 431,
`notFound` the ValueError of line 436 (capability does not resolve),
`unavailable` the RuntimeError of line 445 (backend session missing),
`methodMissing` the NotImplementedError of lines 452 and 472,
`timeoutErr`, `connectionErr` and `backendReported` the re-raised
exceptions of lines 482, 487 and 490,
`wrappedBackend` the BackendServerError wrapper of line 495 naming the
original exception type, and `wrongResultType` the BackendServerError
raised by the handlers on a wrong-shape result (lines 535, 546, 570). -/
inductive FwdErr where
  | componentsNotInit
  | notFound
  | unavailable
  | methodMissing
  | timeoutErr
  | connectionErr
  | backendReported
  | wrappedBackend (origTypeName : String)
  | wrongResultType
deriving DecidableEq, Repr

/-- Behaviour of one backend `ClientSession` for the three forwarded
methods. -/
structure SessionModel where
  callToolFn : String → ArgsD → Except SessionExc MCPResult
  readResourceFn : String → Except SessionExc (String × Option String)
  getPromptFn : String → Option ArgsD → Except SessionExc MCPResult

/-- Mapping of a session exception through the except clauses of
`_fwd_req_helper` (bridge_app.py lines 478-497). -/
def mapSessionExc : SessionExc → FwdErr
  | .timeout => .timeoutErr
  | .connectionLost => .connectionErr
  | .backendError => .backendReported
  | .otherExc t => .wrappedBackend t

/-- A record of one invocation of a backend session method:
`(server, method, original name, arguments passed)`. -/
abbrev BackendCall : Type := String × String × String × Option ArgsD

/-- `_fwd_req_helper` (bridge_app.py lines 420-497): check components,
resolve the capability, look up the backend session, dispatch on the method
name, and map exceptions. The second component records which backend
session methods were invoked. -/
def fwdReqHelper (capNameFull : String) (mcpMethod : String)
    (args : Option ArgsD) (registry : Option RegistryState)
    (manager : Option (List (String × SessionModel))) :
    Except FwdErr MCPResult × List BackendCall :=
  match registry, manager with
  | some reg, some sessions =>
    match resolveCapability reg capNameFull with
    | none => (.error .notFound, [])
    | some (svrName, origCapName) =>
      match lookupA svrName sessions with
      | none => (.error .unavailable, [])
      | some session =>
        if mcpMethod = "call_tool" then
          let sentArgs := args.getD []
          let call : BackendCall := (svrName, mcpMethod, origCapName, some sentArgs)
          match session.callToolFn origCapName sentArgs with
          | .ok r => (.ok r, [call])
          | .error e => (.error (mapSessionExc e), [call])
        else if mcpMethod = "read_resource" then
          let call : BackendCall := (svrName, mcpMethod, origCapName, none)
          match session.readResourceFn origCapName with
          | .ok (content, mime) =>
            (.ok (.readResourceResult content mime), [call])
          | .error e => (.error (mapSessionExc e), [call])
        else if mcpMethod = "get_prompt" then
          let call : BackendCall := (svrName, mcpMethod, origCapName, args)
          match session.getPromptFn origCapName args with
          | .ok r => (.ok r, [call])
          | .error e => (.error (mapSessionExc e), [call])
        else (.error .methodMissing, [])
  | _, _ => (.error .componentsNotInit, [])

/-- `handle_call_tool` (bridge_app.py lines 527-535): forward, then return
the content of a `CallToolResult`, or fail with a wrong-result-type
backend error. -/
def handleCallTool (name : String) (arguments : ArgsD)
    (registry : Option RegistryState)
    (manager : Option (List (String × SessionModel))) :
    Except FwdErr (List String) × List BackendCall :=
  match fwdReqHelper name "call_tool" (some arguments) registry manager with
  | (.ok (.callToolResult content), tr) => (.ok content, tr)
  | (.ok _, tr) => (.error .wrongResultType, tr)
  | (.error e, tr) => (.error e, tr)

/-- `handle_read_resource` (bridge_app.py lines 538-546). -/
def handleReadResource (name : String) (registry : Option RegistryState)
    (manager : Option (List (String × SessionModel))) :
    Except FwdErr MCPResult × List BackendCall :=
  match fwdReqHelper name "read_resource" none registry manager with
  | (.ok (.readResourceResult content mime), tr) =>
    (.ok (.readResourceResult content mime), tr)
  | (.ok _, tr) => (.error .wrongResultType, tr)
  | (.error e, tr) => (.error e, tr)

/-- The dict comprehension `{k: str(v) for k, v in arguments.items()}` of
`handle_get_prompt` (bridge_app.py line 558) with exception semantics: one
failing conversion aborts the whole comprehension. -/
def stringifyAll : ArgsD → Option ArgsD
  | [] => some []
  | kv :: t =>
    match pyStr kv.2, stringifyAll t with
    | some s, some rest => some ((kv.1, PyValue.pstr s) :: rest)
    | _, _ => none

/-- The arguments `handle_get_prompt` forwards (bridge_app.py lines
555-565): `typed_args or arguments`, where `typed_args` is the stringified
dictionary when conversion succeeded and `None` otherwise, and a Python
`or` falls through on `None` and on the empty dictionary. -/
def getPromptTypedArgs (arguments : Option ArgsD) : Option ArgsD :=
  match arguments with
  | none => none
  | some kvs =>
    match stringifyAll kvs with
    | some typed => if typed.isEmpty then arguments else some typed
    | none => arguments

/-- `handle_get_prompt` (bridge_app.py lines 549-570). -/
def handleGetPrompt (name : String) (arguments : Option ArgsD)
    (registry : Option RegistryState)
    (manager : Option (List (String × SessionModel))) :
    Except FwdErr MCPResult × List BackendCall :=
  match fwdReqHelper name "get_prompt" (getPromptTypedArgs arguments)
      registry manager with
  | (.ok (.getPromptResult messages), tr) =>
    (.ok (.getPromptResult messages), tr)
  | (.ok _, tr) => (.error .wrongResultType, tr)
  | (.error e, tr) => (.error e, tr)

/-! ### Claims C3 and C9 -/

/-- Claim C3: for each of the three forwarded operations, an unresolvable
name fails with the not-found error and a resolvable name whose backend has
no session in the manager fails with the unavailable error; in both cases
the trace of backend session invocations is empty. -/
theorem c3_forwarding_error_paths :
    ∀ (reg : RegistryState) (sessions : List (String × SessionModel))
      (name : String) (arguments : ArgsD) (optArgs : Option ArgsD),
      (resolveCapability reg name = none →
        handleCallTool name arguments (some reg) (some sessions)
          = (.error .notFound, [])
        ∧ handleReadResource name (some reg) (some sessions)
          = (.error .notFound, [])
        ∧ handleGetPrompt name optArgs (some reg) (some sessions)
          = (.error .notFound, []))
      ∧ ∀ svr orig, resolveCapability reg name = some (svr, orig) →
          lookupA svr sessions = none →
          handleCallTool name arguments (some reg) (some sessions)
            = (.error .unavailable, [])
          ∧ handleReadResource name (some reg) (some sessions)
            = (.error .unavailable, [])
          ∧ handleGetPrompt name optArgs (some reg) (some sessions)
            = (.error .unavailable, []) := by
  intro reg sessions name arguments optArgs
  constructor
  · intro hres
    refine ⟨?_, ?_, ?_⟩ <;>
      simp [handleCallTool, handleReadResource, handleGetPrompt,
        fwdReqHelper, hres]
  · intro svr orig hres hsess
    refine ⟨?_, ?_, ?_⟩ <;>
      simp [handleCallTool, handleReadResource, handleGetPrompt,
        fwdReqHelper, hres, hsess]

/-- Witness for claim C3: against an empty registry every name is
not-found; against a registry routing `A_t` to backend `A` with an empty
session map the call is unavailable. -/
theorem c3_forwarding_error_paths_witness :
    handleCallTool "ghost" [] (some RegistryState.empty) (some [])
      = (.error .notFound, [])
    ∧ handleCallTool "A_t" []
        (some ⟨[⟨CapType.tool, "A_t", none⟩], [], [],
          [("A_t", ("A", "t"))], [("t", "A")]⟩) (some [])
      = (.error .unavailable, []) :=
  ⟨((c3_forwarding_error_paths RegistryState.empty [] "ghost" [] none).1
      (by decide)).1,
   ((c3_forwarding_error_paths
      ⟨[⟨CapType.tool, "A_t", none⟩], [], [],
        [("A_t", ("A", "t"))], [("t", "A")]⟩ [] "A_t" [] none).2
      "A" "t" (by decide) rfl).1⟩

/-- Claim C9: when the argument mapping of a `getPrompt` call is present and
every value converts to a string without error, the arguments forwarded to
the backend session are the keyed string conversions, not the original
values. -/
theorem c9_get_prompt_stringified_args :
    ∀ (kvs typed : ArgsD), stringifyAll kvs = some typed →
      getPromptTypedArgs (some kvs) = some typed
      ∧ ∀ (name : String) (reg : RegistryState)
          (sessions : List (String × SessionModel)) (svr orig : String)
          (session : SessionModel),
          resolveCapability reg name = some (svr, orig) →
          lookupA svr sessions = some session →
          (handleGetPrompt name (some kvs) (some reg) (some sessions)).2
            = [(svr, "get_prompt", orig, some typed)] := by
  intro kvs typed h
  have h1 : getPromptTypedArgs (some kvs) = some typed := by
    cases kvs with
    | nil =>
      simp [stringifyAll] at h
      simp [getPromptTypedArgs, stringifyAll, ← h]
    | cons kv t =>
      cases hp : pyStr kv.2 with
      | none => simp [stringifyAll, hp] at h
      | some s =>
        cases hs : stringifyAll t with
        | none => simp [stringifyAll, hp, hs] at h
        | some rest =>
          have ht : typed = (kv.1, PyValue.pstr s) :: rest := by
            have h2 := h
            simp [stringifyAll, hp, hs] at h2
            exact h2.symm
          subst ht
          simp [getPromptTypedArgs, stringifyAll, hp, hs]
  refine ⟨h1, ?_⟩
  intro name reg sessions svr orig session hres hsess
  cases hr : session.getPromptFn orig (some typed) with
  | ok r =>
    cases r <;>
      simp [handleGetPrompt, fwdReqHelper, h1, hres, hsess, hr]
  | error e =>
    simp [handleGetPrompt, fwdReqHelper, h1, hres, hsess, hr]

/-- Witness for claim C9: the arguments `{"a": 1, "b": True}` are forwarded
as `{"a": "1", "b": "True"}`, and the backend call carries exactly those
stringified arguments. -/
theorem c9_get_prompt_stringified_args_witness :
    getPromptTypedArgs (some [("a", PyValue.pint 1), ("b", PyValue.pbool true)])
      = some [("a", PyValue.pstr "1"), ("b", PyValue.pstr "True")]
    ∧ (handleGetPrompt "A_p"
        (some [("a", PyValue.pint 1), ("b", PyValue.pbool true)])
        (some ⟨[], [], [⟨CapType.prompt, "A_p", none⟩],
          [("A_p", ("A", "p"))], [("p", "A")]⟩)
        (some [("A",
          ⟨fun _ _ => .ok .unexpectedValue,
           fun _ => .ok ("", none),
           fun _ _ => .ok (.getPromptResult [])⟩)])).2
      = [("A", "get_prompt", "p",
          some [("a", PyValue.pstr "1"), ("b", PyValue.pstr "True")])] :=
  ⟨(c9_get_prompt_stringified_args
      [("a", PyValue.pint 1), ("b", PyValue.pbool true)]
      [("a", PyValue.pstr "1"), ("b", PyValue.pstr "True")] (by decide)).1,
   (c9_get_prompt_stringified_args
      [("a", PyValue.pint 1), ("b", PyValue.pbool true)]
      [("a", PyValue.pstr "1"), ("b", PyValue.pstr "True")] (by decide)).2
      "A_p"
      ⟨[], [], [⟨CapType.prompt, "A_p", none⟩],
        [("A_p", ("A", "p"))], [("p", "A")]⟩
      [("A",
        ⟨fun _ _ => .ok .unexpectedValue,
         fun _ => .ok ("", none),
         fun _ _ => .ok (.getPromptResult [])⟩)]
      "A" "p"
      ⟨fun _ _ => .ok .unexpectedValue,
       fun _ => .ok ("", none),
       fun _ _ => .ok (.getPromptResult [])⟩
      (by decide) (by simp [lookupA])⟩

/-! ### Startup orchestration (`bridge_app.py` lifespan) — claim C4 -/

/-- The discovery tasks created by `discover_and_register` for the active
sessions, in task-creation order (tools, resources, prompts per backend;
capability_registry.py lines 156-183). -/
def discoveryEventsFor (active : List String)
    (fetches : String → CapType → FetchOutcome) : List DiscoveryEvent :=
  active.foldr
    (fun s acc =>
      ⟨s, CapType.tool, fetches s CapType.tool⟩ ::
      ⟨s, CapType.resource, fetches s CapType.resource⟩ ::
      ⟨s, CapType.prompt, fetches s CapType.prompt⟩ :: acc)
    []

/-- The startup phase of `app_lifespan` (bridge_app.py lines 327-337):
`manager.start_all` keeps the sessions of the backends that connected and
initialized (`connects`), `_connect_backends` raises a `BackendServerError`
exactly when `conn_svrs == 0 and total_svrs > 0` (lines 244-245), and
`_discover_capabilities` runs discovery only when at least one session is
active (lines 267-273), leaving the freshly constructed registry empty
otherwise. -/
def lifespanStartup (config : List String) (connects : String → Bool)
    (fetches : String → CapType → FetchOutcome) :
    Except String (List String × RegistryState) :=
  let active := config.filter (fun n => connects n)
  if active.length = 0 ∧ 0 < config.length then
    .error "BackendServerError"
  else
    let registry :=
      if 0 < active.length then
        discoverAndRegister RegistryState.empty
          (discoveryEventsFor active fetches)
      else RegistryState.empty
    .ok (active, registry)

/-- Whether an `Except` computation succeeded. -/
def isOkE {ε α : Type} : Except ε α → Bool
  | .ok _ => true
  | .error _ => false

/-- Claim C4: startup fails with a backend error exactly when at least one
backend is configured and none initializes; with an empty configuration
startup succeeds, the aggregated lists are empty and every resolve returns
none. -/
theorem c4_startup_failure_iff :
    ∀ (config : List String) (connects : String → Bool)
      (fetches : String → CapType → FetchOutcome),
      (isOkE (lifespanStartup config connects fetches) = false ↔
        config ≠ [] ∧ config.filter (fun n => connects n) = [])
      ∧ (config = [] →
          lifespanStartup config connects fetches
            = .ok ([], RegistryState.empty)
          ∧ aggregatedNames RegistryState.empty = []
          ∧ ∀ n, resolveCapability RegistryState.empty n = none) := by
  intro config connects fetches
  constructor
  · by_cases hcond :
        (config.filter (fun n => connects n)).length = 0 ∧ 0 < config.length
    · simp only [lifespanStartup, if_pos hcond, isOkE]
      constructor
      · intro _
        exact ⟨List.length_pos.mp hcond.2,
          List.length_eq_zero.mp hcond.1⟩
      · intro _; trivial
    · simp only [lifespanStartup, if_neg hcond, isOkE]
      constructor
      · intro hfalse; exact absurd hfalse (by simp)
      · rintro ⟨hne, hfil⟩
        exact absurd ⟨by simp [hfil], List.length_pos.mpr hne⟩ hcond
  · intro hc
    subst hc
    refine ⟨by simp [lifespanStartup], rfl, fun n => rfl⟩

/-- Witness for claim C4: one configured backend that fails to connect
makes startup fail; the empty configuration starts with an empty registry
in which `echo` does not resolve. -/
theorem c4_startup_failure_iff_witness :
    isOkE (lifespanStartup ["A"] (fun _ => false) (fun _ _ => .fetchError))
      = false
    ∧ lifespanStartup [] (fun _ => false) (fun _ _ => .fetchError)
        = .ok ([], RegistryState.empty)
    ∧ resolveCapability RegistryState.empty "echo" = none :=
  ⟨(c4_startup_failure_iff ["A"] (fun _ => false) (fun _ _ => .fetchError)).1.mpr
      ⟨by decide, rfl⟩,
   ((c4_startup_failure_iff [] (fun _ => false) (fun _ _ => .fetchError)).2
      rfl).1,
   ((c4_startup_failure_iff [] (fun _ => false) (fun _ _ => .fetchError)).2
      rfl).2.2 "echo"⟩

/-! ### Subprocess supervisor (`client_manager.py`) — claim C6 -/

/-- Observable state of the supervised child process when `_manage_subproc`
reaches its finally block: `returncode` is `None` while the child has not
been observed to exit, `alive` is false when the process has vanished (so
that `terminate()` raises `ProcessLookupError`), and `termResponsive` says
whether the child exits within the 3-second grace wait. -/
structure ProcModel where
  returncode : Option Int
  alive : Bool
  termResponsive : Bool
deriving DecidableEq, Repr

/-- Actions the supervisor performs on the child. -/
inductive SupAction where
  | sigterm
  | waitBounded (seconds : Nat)
  | sigkill
  | waitUnbounded
deriving DecidableEq, Repr

/-- The termination protocol of the finally block of `_manage_subproc`
(client_manager.py lines 109-129): nothing if the child already exited;
otherwise `terminate()` then `wait_for(process.wait(), timeout=3.0)`; on
timeout `kill()` then an unbounded `wait()`; `ProcessLookupError` from
`terminate()` is caught (line 123) and, like every other exception of the
block, never propagated. The boolean records whether an exception
escapes. -/
def manageSubprocRelease (p : ProcModel) : List SupAction × Bool :=
  match p.returncode with
  | some _ => ([], false)
  | none =>
    if p.alive = false then ([SupAction.sigterm], false)
    else if p.termResponsive then
      ([SupAction.sigterm, SupAction.waitBounded 3], false)
    else
      ([SupAction.sigterm, SupAction.waitBounded 3, SupAction.sigkill,
        SupAction.waitUnbounded], false)

/-- Claim C6: an already-exited child is left alone; otherwise a polite
termination signal is sent with a 3-second bounded wait; on timeout a kill
follows with an unbounded wait; a vanished process is not an error. -/
theorem c6_subprocess_release (p : ProcModel) :
    (p.returncode.isSome → manageSubprocRelease p = ([], false))
    ∧ (p.returncode = none → p.alive = true → p.termResponsive = true →
        manageSubprocRelease p
          = ([SupAction.sigterm, SupAction.waitBounded 3], false))
    ∧ (p.returncode = none → p.alive = true → p.termResponsive = false →
        manageSubprocRelease p
          = ([SupAction.sigterm, SupAction.waitBounded 3, SupAction.sigkill,
              SupAction.waitUnbounded], false))
    ∧ (p.returncode = none → p.alive = false →
        (manageSubprocRelease p).2 = false) := by
  obtain ⟨rc, al, tr⟩ := p
  cases rc <;> cases al <;> cases tr <;> simp [manageSubprocRelease]

/-- Witness for claim C6 at the four concrete child behaviours. -/
theorem c6_subprocess_release_witness :
    manageSubprocRelease ⟨some 0, true, true⟩ = ([], false)
    ∧ manageSubprocRelease ⟨none, true, true⟩
        = ([SupAction.sigterm, SupAction.waitBounded 3], false)
    ∧ manageSubprocRelease ⟨none, true, false⟩
        = ([SupAction.sigterm, SupAction.waitBounded 3, SupAction.sigkill,
            SupAction.waitUnbounded], false)
    ∧ (manageSubprocRelease ⟨none, false, true⟩).2 = false :=
  ⟨(c6_subprocess_release ⟨some 0, true, true⟩).1 rfl,
   (c6_subprocess_release ⟨none, true, true⟩).2.1 rfl rfl rfl,
   (c6_subprocess_release ⟨none, true, false⟩).2.2.1 rfl rfl rfl,
   (c6_subprocess_release ⟨none, false, true⟩).2.2.2 rfl rfl⟩

/-! ### Client manager shutdown (`client_manager.py`) — claim C7 -/

/-- The mutable state of a `ClientManager`: the session map, the pending
startup-task map, and the AsyncExitStack of registered release actions
(client_manager.py lines 159-163). -/
structure MgrLifeState where
  sessions : List (String × Nat)
  pendingTasks : List String
  exitStack : List Nat
deriving DecidableEq, Repr

/-- Actions performed by `stop_all`. -/
inductive StopAction where
  | cancelTask (taskName : String)
  | releaseResource (resourceId : Nat)
deriving DecidableEq, Repr

/-- `stop_all` (client_manager.py lines 284-308): cancel and clear every
pending startup task, drain the AsyncExitStack in LIFO order (each release
isolated by the surrounding try/except, so no exception escapes), then
clear the session map. -/
def stopAll (s : MgrLifeState) : MgrLifeState × List StopAction :=
  (⟨[], [], []⟩,
    s.pendingTasks.map StopAction.cancelTask
      ++ s.exitStack.reverse.map StopAction.releaseResource)

/-- Claim C7: a completed `stop_all` leaves the session map, the pending
task map and the resource stack empty, and a second `stop_all` on that
state performs no action and leaves the state unchanged. -/
theorem c7_stop_all_idempotent (s : MgrLifeState) :
    (stopAll s).1.sessions = []
    ∧ (stopAll s).1.pendingTasks = []
    ∧ (stopAll s).1.exitStack = []
    ∧ stopAll ((stopAll s).1) = ((stopAll s).1, []) :=
  ⟨rfl, rfl, rfl, rfl⟩

/-! ### Session map copying (`client_manager.py`) — claim C10 -/

/-- Read the dictionary at a heap slot (out-of-range reads yield the empty
dictionary; they never occur under the validity hypotheses used below). -/
def nthD {α : Type} : List (List α) → Nat → List α
  | [], _ => []
  | x :: _, 0 => x
  | _ :: t, n + 1 => nthD t n

/-- Overwrite the dictionary at a heap slot. -/
def setNth {α : Type} : List (List α) → Nat → List α → List (List α)
  | [], _, _ => []
  | _ :: t, 0, v => v :: t
  | x :: t, n + 1, v => x :: setNth t n v

theorem nthD_append_lt {α : Type} :
    ∀ (l1 l2 : List (List α)) (i : Nat), i < l1.length →
      nthD (l1 ++ l2) i = nthD l1 i := by
  intro l1
  induction l1 with
  | nil => intro l2 i h; exact absurd h (by simp)
  | cons x t ih =>
    intro l2 i h
    cases i with
    | zero => rfl
    | succ j => exact ih l2 j (by simpa using h)

theorem nthD_setNth_ne {α : Type} :
    ∀ (l : List (List α)) (i j : Nat) (v : List α), i ≠ j →
      nthD (setNth l j v) i = nthD l i := by
  intro l
  induction l with
  | nil => intro i j v _; rfl
  | cons x t ih =>
    intro i j v hne
    cases j with
    | zero =>
      cases i with
      | zero => exact absurd rfl hne
      | succ k => rfl
    | succ j2 =>
      cases i with
      | zero => rfl
      | succ k => exact ih k j2 v (fun he => hne (by rw [he]))

/-- A heap of Python dictionaries mapping backend names to session object
identities; dictionary identity (aliasing) is a heap slot index. -/
structure DictHeap where
  dicts : List (List (String × Nat))
deriving DecidableEq, Repr

/-- A `ClientManager` as a reference to its `_sessions` dictionary. -/
structure ManagerRef where
  sessionsRef : Nat
deriving DecidableEq, Repr

def readDict (h : DictHeap) (r : Nat) : List (String × Nat) :=
  nthD h.dicts r

/-- In-place mutation of the dictionary at slot `r` (adding or removing
entries is overwriting its contents). -/
def writeDict (h : DictHeap) (r : Nat) (v : List (String × Nat)) : DictHeap :=
  ⟨setNth h.dicts r v⟩

/-- `get_session` (client_manager.py lines 310-312):
`self._sessions.get(svr_name)`. -/
def getSession (h : DictHeap) (m : ManagerRef) (svrName : String) :
    Option Nat :=
  lookupA svrName (readDict h m.sessionsRef)

/-- `get_all_sessions` (client_manager.py lines 318-320):
`return self._sessions.copy()` — allocates a fresh dictionary with the same
contents and returns a reference to it. -/
def getAllSessions (h : DictHeap) (m : ManagerRef) : Nat × DictHeap :=
  (h.dicts.length, ⟨h.dicts ++ [readDict h m.sessionsRef]⟩)

/-- Claim C10: mutating the dictionary returned by `get_all_sessions` in
any way leaves the manager's internal session map, and hence the result of
subsequent `get_session` calls, unchanged. -/
theorem c10_get_all_sessions_copy (h : DictHeap) (m : ManagerRef)
    (newContents : List (String × Nat)) (svrName : String)
    (href : m.sessionsRef < h.dicts.length) :
    readDict (writeDict (getAllSessions h m).2 (getAllSessions h m).1
        newContents) m.sessionsRef
      = readDict h m.sessionsRef
    ∧ getSession (writeDict (getAllSessions h m).2 (getAllSessions h m).1
        newContents) m svrName
      = getSession h m svrName := by
  have hne : m.sessionsRef ≠ h.dicts.length := Nat.ne_of_lt href
  have e1 : readDict (writeDict (getAllSessions h m).2 (getAllSessions h m).1
      newContents) m.sessionsRef = readDict h m.sessionsRef := by
    show nthD (setNth (h.dicts ++ [readDict h m.sessionsRef])
      h.dicts.length newContents) m.sessionsRef = nthD h.dicts m.sessionsRef
    rw [nthD_setNth_ne _ _ _ _ hne]
    exact nthD_append_lt h.dicts _ m.sessionsRef href
  refine ⟨e1, ?_⟩
  show lookupA svrName (readDict (writeDict (getAllSessions h m).2
    (getAllSessions h m).1 newContents) m.sessionsRef)
    = lookupA svrName (readDict h m.sessionsRef)
  rw [e1]

/-- Witness for claim C10: clearing the copied dictionary leaves
`get_session "A"` on the manager unchanged. -/
theorem c10_get_all_sessions_copy_witness :
    (0 : Nat) < (DictHeap.mk [[("A", 1)]]).dicts.length
    ∧ getSession (writeDict (getAllSessions ⟨[[("A", 1)]]⟩ ⟨0⟩).2
        (getAllSessions ⟨[[("A", 1)]]⟩ ⟨0⟩).1 []) ⟨0⟩ "A"
      = getSession ⟨[[("A", 1)]]⟩ ⟨0⟩ "A" :=
  ⟨by decide,
   (c10_get_all_sessions_copy ⟨[[("A", 1)]]⟩ ⟨0⟩ [] "A" (by decide)).2⟩

end MCPGateway
